import Mathlib

/-!
Verification of the `fs/file.rs` Entry data model of remotefs-rs.

The embedding mirrors the source module:
  - `UnixPex` with its byte codec (`as_byte`, `impl From<u8>` as `from_u8`);
    the `u8` argument is a `Nat` together with a `< 256` bound where it
    matters (all operations only inspect the low three bits, and `as_byte`
    produces values below 8, so no wrap-around can occur).
  - `Directory` and `File` as structures with the fields of the Rust
    structs; the recursive `symlink: Option<Box<Entry>>` field is broken by
    a type parameter and tied back in the `Entry` inductive, whose two
    constructors wrap the two payload structs exactly as the Rust enum does.
  - `PathBuf` and the file name are `String`; `SystemTime` is modelled as a
    `Nat` tick count (the code never inspects times, it only stores and
    returns them); `usize`/`u32` are `Nat`.
  - the accessors, `is_hidden`, the recursive `get_realfile`, and the
    unwrap operations; the `panic!` of `unwrap_file`/`unwrap_dir` on a
    variant mismatch is modelled by returning `none`, the successful path
    by `some payload`.
-/

set_option autoImplicit false

set_option maxRecDepth 8192

/-- Permission triple of POSIX systems: the `UnixPex` struct (three private
`bool` fields `read`, `write`, `execute`). -/
structure UnixPex where
  read : Bool
  write : Bool
  execute : Bool
deriving DecidableEq

/-- Embeds `UnixPex::new(read, write, execute)`. -/
def UnixPex.new (read write execute : Bool) : UnixPex :=
  ⟨read, write, execute⟩

/-- Embeds `UnixPex::can_read`. -/
def UnixPex.can_read (p : UnixPex) : Bool :=
  p.read

/-- Embeds `UnixPex::can_write`. -/
def UnixPex.can_write (p : UnixPex) : Bool :=
  p.write

/-- Embeds `UnixPex::can_execute`. -/
def UnixPex.can_execute (p : UnixPex) : Bool :=
  p.execute

/-- Embeds `UnixPex::as_byte`:
`((self.read as u8) << 2) + ((self.write as u8) << 1) + (self.execute as u8)`.
The sum is at most 7, so `u8` addition never wraps and `Nat` is exact. -/
def UnixPex.as_byte (p : UnixPex) : Nat :=
  (p.read.toNat <<< 2) + (p.write.toNat <<< 1) + p.execute.toNat

/-- Embeds `impl From<u8> for UnixPex`:
`read = ((bits >> 2) & 0x01) != 0`, `write = ((bits >> 1) & 0x01) != 0`,
`execute = (bits & 0x01) != 0`. On the low three bits these `u8` operations
agree with the `Nat` ones for every `bits < 256`. -/
def UnixPex.from_u8 (bits : Nat) : UnixPex :=
  ⟨((bits >>> 2) &&& 1) != 0, ((bits >>> 1) &&& 1) != 0, (bits &&& 1) != 0⟩

/-- The `Directory` struct. The type parameter `ε` stands for `Entry` in
the recursive field `symlink: Option<Box<Entry>>` (the `Box` indirection is
invisible at the value level) and is instantiated with `Entry` below. -/
structure Directory (ε : Type) where
  name : String
  abs_path : String
  last_change_time : Nat
  last_access_time : Nat
  creation_time : Nat
  symlink : Option ε
  user : Option Nat
  group : Option Nat
  unix_pex : Option (UnixPex × UnixPex × UnixPex)

/-- The `File` struct: the common fields of `Directory` plus `size` and
`ftype`. The type parameter plays the same role as in `Directory`. -/
structure File (ε : Type) where
  name : String
  abs_path : String
  last_change_time : Nat
  last_access_time : Nat
  creation_time : Nat
  size : Nat
  ftype : Option String
  symlink : Option ε
  user : Option Nat
  group : Option Nat
  unix_pex : Option (UnixPex × UnixPex × UnixPex)

/-- The `Entry` enum: `Directory(Directory) | File(File)`, a closed tagged
union whose variants own their payload structs. -/
inductive Entry where
  | directory : Directory Entry → Entry
  | file : File Entry → Entry

/-- Embeds `Entry::get_abs_path` (the `clone` of the path is identity on
values). -/
def Entry.get_abs_path : Entry → String
  | .directory dir => dir.abs_path
  | .file f => f.abs_path

/-- Embeds `Entry::get_name`. -/
def Entry.get_name : Entry → String
  | .directory dir => dir.name
  | .file f => f.name

/-- Embeds `Entry::get_last_change_time`. -/
def Entry.get_last_change_time : Entry → Nat
  | .directory dir => dir.last_change_time
  | .file f => f.last_change_time

/-- Embeds `Entry::get_last_access_time`. -/
def Entry.get_last_access_time : Entry → Nat
  | .directory dir => dir.last_access_time
  | .file f => f.last_access_time

/-- Embeds `Entry::get_creation_time`. -/
def Entry.get_creation_time : Entry → Nat
  | .directory dir => dir.creation_time
  | .file f => f.creation_time

/-- Embeds `Entry::get_size`: `4096` for a directory, the `size` field for
a file. -/
def Entry.get_size : Entry → Nat
  | .directory _ => 4096
  | .file f => f.size

/-- Embeds `Entry::get_ftype`: `None` for a directory, the (cloned) `ftype`
field for a file. -/
def Entry.get_ftype : Entry → Option String
  | .directory _ => none
  | .file f => f.ftype

/-- Embeds `Entry::get_user`. -/
def Entry.get_user : Entry → Option Nat
  | .directory dir => dir.user
  | .file f => f.user

/-- Embeds `Entry::get_group`. -/
def Entry.get_group : Entry → Option Nat
  | .directory dir => dir.group
  | .file f => f.group

/-- Embeds `Entry::get_unix_pex`. -/
def Entry.get_unix_pex : Entry → Option (UnixPex × UnixPex × UnixPex)
  | .directory dir => dir.unix_pex
  | .file f => f.unix_pex

/-- Embeds `Entry::is_symlink`: whether the `symlink` field of the active
variant is `Some`. -/
def Entry.is_symlink : Entry → Bool
  | .directory dir => dir.symlink.isSome
  | .file f => f.symlink.isSome

/-- Embeds `Entry::is_dir`. -/
def Entry.is_dir : Entry → Bool
  | .directory _ => true
  | .file _ => false

/-- Embeds `Entry::is_file`. -/
def Entry.is_file : Entry → Bool
  | .directory _ => false
  | .file _ => true

/-- Models Rust `str::starts_with` applied to a single `char` pattern: the
string begins with that character. -/
def starts_with_char (s : String) (c : Char) : Bool :=
  match s.data with
  | [] => false
  | ch :: _ => ch == c

/-- Embeds `Entry::is_hidden`: `self.get_name().starts_with('.')`. -/
def Entry.is_hidden (e : Entry) : Bool :=
  starts_with_char e.get_name '.'

/-- Embeds `Entry::get_realfile`: both variants inspect their `symlink`
field; a populated field recurses into the target, an empty one returns a
clone of the entry itself (cloning is identity on values). -/
def Entry.get_realfile : Entry → Entry
  | .directory ⟨_, _, _, _, _, some symlink, _, _, _⟩ =>
      symlink.get_realfile
  | .directory ⟨n, p, a, b, c, none, u, g, x⟩ =>
      .directory ⟨n, p, a, b, c, none, u, g, x⟩
  | .file ⟨_, _, _, _, _, _, _, some symlink, _, _, _⟩ =>
      symlink.get_realfile
  | .file ⟨n, p, a, b, c, sz, ft, none, u, g, x⟩ =>
      .file ⟨n, p, a, b, c, sz, ft, none, u, g, x⟩

/-- Embeds `Entry::unwrap_file`. The source panics on a `Directory`; the
panic is modelled as `none`, the successful extraction as `some file`. -/
def Entry.unwrap_file : Entry → Option (File Entry)
  | .file f => some f
  | .directory _ => none

/-- Embeds `Entry::unwrap_dir`. The source panics on a `File`; the panic is
modelled as `none`, the successful extraction as `some dir`. -/
def Entry.unwrap_dir : Entry → Option (Directory Entry)
  | .directory dir => some dir
  | .file _ => none

/-- The `symlink` field of whichever variant is active (the common shape of
the two `match` arms of `get_realfile` and `is_symlink`). -/
def Entry.symlink_field : Entry → Option Entry
  | .directory dir => dir.symlink
  | .file f => f.symlink

/-- On either variant `is_symlink` is `isSome` of the `symlink` field. -/
theorem Entry.is_symlink_eq_field : (e : Entry) →
    e.is_symlink = e.symlink_field.isSome
  | .directory _ => rfl
  | .file _ => rfl

/-- An entry whose `symlink` field is populated dereferences to the
dereference of its target. -/
theorem Entry.realfile_of_symlink_some : (e t : Entry) →
    e.symlink_field = some t → e.get_realfile = t.get_realfile
  | .directory ⟨_, _, _, _, _, some _, _, _, _⟩, _, h => by
      cases h; rfl
  | .directory ⟨_, _, _, _, _, none, _, _, _⟩, _, h => by
      cases h
  | .file ⟨_, _, _, _, _, _, _, some _, _, _, _⟩, _, h => by
      cases h; rfl
  | .file ⟨_, _, _, _, _, _, _, none, _, _, _⟩, _, h => by
      cases h

/-- An entry with no symlink dereferences to itself. -/
theorem Entry.realfile_of_symlink_none : (e : Entry) →
    e.symlink_field = none → e.get_realfile = e
  | .directory ⟨_, _, _, _, _, some _, _, _, _⟩, h => by cases h
  | .directory ⟨_, _, _, _, _, none, _, _, _⟩, _ => rfl
  | .file ⟨_, _, _, _, _, _, _, some _, _, _, _⟩, h => by cases h
  | .file ⟨_, _, _, _, _, _, _, none, _, _, _⟩, _ => rfl

/-- The result of `get_realfile` carries no symlink field. -/
theorem Entry.realfile_symlink_field_none : (e : Entry) →
    (Entry.get_realfile e).symlink_field = none
  | .directory ⟨_, _, _, _, _, some s, _, _, _⟩ =>
      Entry.realfile_symlink_field_none s
  | .directory ⟨_, _, _, _, _, none, _, _, _⟩ => rfl
  | .file ⟨_, _, _, _, _, _, _, some s, _, _, _⟩ =>
      Entry.realfile_symlink_field_none s
  | .file ⟨_, _, _, _, _, _, _, none, _, _, _⟩ => rfl

/-- Sample three-hop chain, the terminal entry: directory
`/home/cvisintin/projects`, no symlink. -/
def target_dir : Directory Entry :=
  ⟨"projects", "/home/cvisintin/projects", 0, 0, 0, none, some 0, some 0,
    some (UnixPex.from_u8 7, UnixPex.from_u8 7, UnixPex.from_u8 7)⟩

/-- The terminal entry wrapped in its variant. -/
def entry_target : Entry :=
  .directory target_dir

/-- Middle hop: directory `/develop/projects` whose symlink points at the
terminal entry. -/
def child_dir : Directory Entry :=
  ⟨"projects", "/develop/projects", 0, 0, 0, some entry_target, some 0,
    some 0, some (UnixPex.from_u8 7, UnixPex.from_u8 7, UnixPex.from_u8 7)⟩

/-- The middle hop wrapped in its variant. -/
def entry_child : Entry :=
  .directory child_dir

/-- Chain root: file `/projects` whose symlink points at the middle hop. -/
def root_file : File Entry :=
  ⟨"projects", "/projects", 0, 0, 0, 8, none, some entry_child, some 0,
    some 0, some (UnixPex.from_u8 7, UnixPex.from_u8 7, UnixPex.from_u8 7)⟩

/-- The chain root wrapped in its variant. -/
def entry_root : Entry :=
  .file root_file

/-- Sample plain file named `foo`, not hidden. -/
def foo_file : Entry :=
  .file ⟨"foo", "/foo", 0, 0, 0, 8192, some "txt", none, some 0, some 0,
    some (UnixPex.from_u8 6, UnixPex.from_u8 4, UnixPex.from_u8 4)⟩

/-- Sample hidden directory named `.git`. -/
def git_dir : Entry :=
  .directory ⟨".git", "/.git", 0, 0, 0, none, some 0, some 0,
    some (UnixPex.from_u8 7, UnixPex.from_u8 5, UnixPex.from_u8 5)⟩

/-- Sample hidden file named `.gitignore`. -/
def gitignore_file : Entry :=
  .file ⟨".gitignore", "/.gitignore", 0, 0, 0, 8192, some "txt", none,
    some 0, some 0,
    some (UnixPex.from_u8 6, UnixPex.from_u8 4, UnixPex.from_u8 4)⟩

/-- A string starts with a character exactly when that character heads its
character list. -/
theorem starts_with_char_iff_head (s : String) (c : Char) :
    starts_with_char s c = true ↔ s.data.head? = some c := by
  cases s with
  | mk l =>
      cases l with
      | nil => simp [starts_with_char]
      | cons ch t => simp [starts_with_char]

/-- C1: `get_realfile` follows the symlink chain: an entry carrying a
symlink target dereferences to the dereference of that target — stated
separately for the `Directory` and the `File` variant, which behave
identically — and an entry with no symlink dereferences to (a copy of)
itself, so its absolute path is preserved; on the three-hop sample chain
root → child → target the root dereferences to the target's absolute
path. -/
theorem realfile_follows_symlink_chain :
    (∀ (dir : Directory Entry) (t : Entry), dir.symlink = some t →
        (Entry.directory dir).get_realfile = t.get_realfile) ∧
    (∀ (f : File Entry) (t : Entry), f.symlink = some t →
        (Entry.file f).get_realfile = t.get_realfile) ∧
    (∀ e : Entry, e.symlink_field = none → e.get_realfile = e) ∧
    entry_root.get_realfile.get_abs_path = "/home/cvisintin/projects" ∧
    (∀ e : Entry, e.symlink_field = none →
        e.get_realfile.get_abs_path = e.get_abs_path) := by
  refine ⟨?_, ?_, ?_, rfl, ?_⟩
  · intro dir t h
    exact Entry.realfile_of_symlink_some (.directory dir) t h
  · intro f t h
    exact Entry.realfile_of_symlink_some (.file f) t h
  · exact Entry.realfile_of_symlink_none
  · intro e h
    rw [Entry.realfile_of_symlink_none e h]

/-- Witness for C1: the sample chain root (a `File`) dereferences through
its symlink, and the terminal entry (no symlink) dereferences to itself. -/
theorem realfile_follows_symlink_chain_witness :
    root_file.symlink = some entry_child ∧
    (Entry.file root_file).get_realfile = entry_child.get_realfile ∧
    child_dir.symlink = some entry_target ∧
    (Entry.directory child_dir).get_realfile = entry_target.get_realfile ∧
    entry_target.symlink_field = none ∧
    entry_target.get_realfile = entry_target ∧
    entry_target.get_realfile.get_abs_path = entry_target.get_abs_path :=
  ⟨rfl,
   realfile_follows_symlink_chain.2.1 root_file entry_child rfl,
   rfl,
   realfile_follows_symlink_chain.1 child_dir entry_target rfl,
   rfl,
   realfile_follows_symlink_chain.2.2.1 entry_target rfl,
   realfile_follows_symlink_chain.2.2.2.2 entry_target rfl⟩

/-- C2: the `UnixPex` byte codec round-trips: decoding an encoded triple
gives the triple back; encoding a decoded byte gives the byte's low three
bits; and the encoder only produces values in `[0, 7]`. -/
theorem unixpex_byte_roundtrip :
    (∀ x : UnixPex, UnixPex.from_u8 x.as_byte = x) ∧
    (∀ v : Nat, v < 256 → (UnixPex.from_u8 v).as_byte = v &&& 7) ∧
    (∀ x : UnixPex, x.as_byte < 8) := by
  refine ⟨?_, by decide, ?_⟩
  · intro x
    cases x with
    | mk r w e => cases r <;> cases w <;> cases e <;> decide
  · intro x
    cases x with
    | mk r w e => cases r <;> cases w <;> cases e <;> decide

/-- Witness for C2: the bounded byte statement of `unixpex_byte_roundtrip`
evaluated at the byte 202 (binary 11001010, low three bits 010). -/
theorem unixpex_byte_roundtrip_witness :
    202 < 256 ∧ (UnixPex.from_u8 202).as_byte = 202 &&& 7 :=
  ⟨by decide, unixpex_byte_roundtrip.2.1 202 (by decide)⟩

/-- C3: decoding reads bit 2 into `read`, bit 1 into `write`, bit 0 into
`execute`, as observed through `can_read`/`can_write`/`can_execute`; and
`as_byte` encodes back with the same layout, placing `read` at bit 2,
`write` at bit 1 and `execute` at bit 0 of the produced byte; in particular
byte 4 decodes to read-only and byte 3 to write-and-execute. -/
theorem unixpex_bit_layout :
    (∀ v : Nat, v < 256 →
        (UnixPex.from_u8 v).can_read = v.testBit 2 ∧
        (UnixPex.from_u8 v).can_write = v.testBit 1 ∧
        (UnixPex.from_u8 v).can_execute = v.testBit 0) ∧
    (∀ x : UnixPex,
        x.as_byte.testBit 2 = x.can_read ∧
        x.as_byte.testBit 1 = x.can_write ∧
        x.as_byte.testBit 0 = x.can_execute) ∧
    UnixPex.from_u8 4 = UnixPex.new true false false ∧
    UnixPex.from_u8 3 = UnixPex.new false true true := by
  refine ⟨by decide, ?_, by decide, by decide⟩
  intro x
  cases x with
  | mk r w e => cases r <;> cases w <;> cases e <;> decide

/-- Witness for C3: the bounded decode statement of `unixpex_bit_layout`
evaluated at the byte 5 (binary 101: read and execute, no write), and its
encode statement evaluated at the triple (read, no write, execute). -/
theorem unixpex_bit_layout_witness :
    5 < 256 ∧
    ((UnixPex.from_u8 5).can_read = Nat.testBit 5 2 ∧
     (UnixPex.from_u8 5).can_write = Nat.testBit 5 1 ∧
     (UnixPex.from_u8 5).can_execute = Nat.testBit 5 0) ∧
    ((UnixPex.new true false true).as_byte.testBit 2 =
        (UnixPex.new true false true).can_read ∧
     (UnixPex.new true false true).as_byte.testBit 1 =
        (UnixPex.new true false true).can_write ∧
     (UnixPex.new true false true).as_byte.testBit 0 =
        (UnixPex.new true false true).can_execute) :=
  ⟨by decide, unixpex_bit_layout.1 5 (by decide),
   unixpex_bit_layout.2.1 (UnixPex.new true false true)⟩

/-- C5: the entry returned by `get_realfile` is terminal: it is never
itself a symlink. -/
theorem realfile_not_symlink (e : Entry) :
    e.get_realfile.is_symlink = false := by
  rw [Entry.is_symlink_eq_field, Entry.realfile_symlink_field_none]
  rfl

/-- C6: variant extraction fails loudly on a mismatch — `unwrap_file` of a
`Directory`-tagged entry hits the panic (modelled `none`), `unwrap_dir` of
a `File`-tagged entry likewise; on the matching variant each returns the
variant payload. -/
theorem unwrap_variant_mismatch :
    (∀ dir : Directory Entry, (Entry.directory dir).unwrap_file = none) ∧
    (∀ f : File Entry, (Entry.file f).unwrap_dir = none) ∧
    (∀ f : File Entry, (Entry.file f).unwrap_file = some f) ∧
    (∀ dir : Directory Entry, (Entry.directory dir).unwrap_dir = some dir) :=
  ⟨fun _ => rfl, fun _ => rfl, fun _ => rfl, fun _ => rfl⟩

/-- C7: every `Directory`-tagged entry reports size 4096 and file type
`none`, whatever its other fields; every `File`-tagged entry reports the
constructed `size` and `ftype` fields. -/
theorem directory_size_ftype :
    (∀ dir : Directory Entry,
        (Entry.directory dir).get_size = 4096 ∧
        (Entry.directory dir).get_ftype = none) ∧
    (∀ f : File Entry,
        (Entry.file f).get_size = f.size ∧
        (Entry.file f).get_ftype = f.ftype) :=
  ⟨fun _ => ⟨rfl, rfl⟩, fun _ => ⟨rfl, rfl⟩⟩

/-- C8: an entry is hidden exactly when its name starts with the character
`.`, for either variant: the file named `foo` is not hidden, the directory
named `.git` and the file named `.gitignore` are. -/
theorem is_hidden_iff_name_starts_with_dot :
    (∀ e : Entry, e.is_hidden = true ↔ e.get_name.data.head? = some '.') ∧
    foo_file.is_hidden = false ∧
    git_dir.is_hidden = true ∧
    gitignore_file.is_hidden = true :=
  ⟨fun e => starts_with_char_iff_head e.get_name '.',
   by decide, by decide, by decide⟩

/-- C9: every accessor is a total function on both variants (it is a total
Lean function by construction) and returns exactly the field values the
entry was constructed with; in particular `is_symlink` is true exactly when
the `symlink` field is populated, on either variant. -/
theorem accessors_return_constructed_values :
    (∀ dir : Directory Entry,
        (Entry.directory dir).get_abs_path = dir.abs_path ∧
        (Entry.directory dir).get_name = dir.name ∧
        (Entry.directory dir).get_last_change_time = dir.last_change_time ∧
        (Entry.directory dir).get_last_access_time = dir.last_access_time ∧
        (Entry.directory dir).get_creation_time = dir.creation_time ∧
        (Entry.directory dir).get_user = dir.user ∧
        (Entry.directory dir).get_group = dir.group ∧
        (Entry.directory dir).get_unix_pex = dir.unix_pex ∧
        (Entry.directory dir).is_symlink = dir.symlink.isSome ∧
        (Entry.directory dir).is_dir = true ∧
        (Entry.directory dir).is_file = false) ∧
    (∀ f : File Entry,
        (Entry.file f).get_abs_path = f.abs_path ∧
        (Entry.file f).get_name = f.name ∧
        (Entry.file f).get_last_change_time = f.last_change_time ∧
        (Entry.file f).get_last_access_time = f.last_access_time ∧
        (Entry.file f).get_creation_time = f.creation_time ∧
        (Entry.file f).get_user = f.user ∧
        (Entry.file f).get_group = f.group ∧
        (Entry.file f).get_unix_pex = f.unix_pex ∧
        (Entry.file f).is_symlink = f.symlink.isSome ∧
        (Entry.file f).is_dir = false ∧
        (Entry.file f).is_file = true) :=
  ⟨fun _ => ⟨rfl, rfl, rfl, rfl, rfl, rfl, rfl, rfl, rfl, rfl, rfl⟩,
   fun _ => ⟨rfl, rfl, rfl, rfl, rfl, rfl, rfl, rfl, rfl, rfl, rfl⟩⟩

/-- C10: `get_realfile` is idempotent: dereferencing an already
dereferenced entry leaves it unchanged, since the result carries no
symlink. -/
theorem realfile_idempotent (e : Entry) :
    e.get_realfile.get_realfile = e.get_realfile :=
  Entry.realfile_of_symlink_none _ (Entry.realfile_symlink_field_none e)
